import Mathlib

/-
Verification of the pwm-position-control repository.

The repository converts between a servo's raw encoder reading ("physical"
position, ticks over one revolution, 4096 ticks = 360 degrees) and a
robot-joint "logical" angle in degrees.  Real arithmetic in the Python code
is modelled over the rationals.  Python `int(...)` (truncation toward zero)
and `%` (sign of the divisor) are modelled explicitly below.
-/

namespace PwmPositionControl

/-- Wrap tie-break rule, `select_limits_physical_to_logical` from
`src/pwm_position_control/__init__.py` (lines 1-13); the nested function
`select_limits_pwm_to_logical` in `src/pwm_position_control/functions.py`
(lines 28-40) is character-for-character identical. -/
def select_limits (a b : ℚ) : ℚ × ℚ :=
  if a = 180 ∧ b ≠ 90 ∧ b ≠ 270 then (-180, b)
  else if b = 180 ∧ a ≠ 90 ∧ a ≠ 270 then (a, -180)
  else if a = -180 ∧ b ≠ -90 ∧ b ≠ -270 then (180, b)
  else if b = -180 ∧ a ≠ -90 ∧ a ≠ -270 then (a, 180)
  else (a, b)

/-- The five physical calibration anchors of a joint: the logical value
recorded at physical 0, 90, 180, 270 and 360 degrees (the dictionary keyed
by "0","90","180","270","360" in the Python sources). -/
structure PhysAnchors where
  a0 : ℚ
  a90 : ℚ
  a180 : ℚ
  a270 : ℚ
  a360 : ℚ
deriving DecidableEq

/-- The five logical calibration anchors of a joint: the physical value
recorded at logical -180, -90, 0, 90 and 180 degrees (the dictionary keyed
by "-180","-90","0","90","180" in the Python sources). -/
structure LogAnchors where
  am180 : ℚ
  am90 : ℚ
  a0 : ℚ
  a90 : ℚ
  a180 : ℚ
deriving DecidableEq

/-- Physical-to-logical piecewise converter: the closure returned by
`build_physical_to_logical` in `src/pwm_position_control/__init__.py`
(lines 16-51).  The nested `_f` built by
`construct_pwm_to_logical_control_table.create_function_for_joint` in
`src/pwm_position_control/functions.py` (lines 53-75) is identical. -/
def physical_to_logical_converter (t : PhysAnchors) (x : ℚ) : ℚ :=
  if 0 ≤ x ∧ x < 90 then
    (select_limits t.a0 t.a90).1 +
      (x / 90) * ((select_limits t.a0 t.a90).2 - (select_limits t.a0 t.a90).1)
  else if 90 ≤ x ∧ x < 180 then
    (select_limits t.a90 t.a180).1 +
      ((x - 90) / 90) *
        ((select_limits t.a90 t.a180).2 - (select_limits t.a90 t.a180).1)
  else if 180 ≤ x ∧ x < 270 then
    (select_limits t.a180 t.a270).1 +
      ((x - 180) / 90) *
        ((select_limits t.a180 t.a270).2 - (select_limits t.a180 t.a270).1)
  else if 270 ≤ x ∧ x ≤ 360 then
    (select_limits t.a270 t.a360).1 +
      ((x - 270) / 90) *
        ((select_limits t.a270 t.a360).2 - (select_limits t.a270 t.a360).1)
  else 0

/-- Logical-to-physical converter, `logical_to_physical_function`, the
closure returned by `build_logical_to_physical` in
`src/pwm_position_control/__init__.py` (lines 54-87).  Note the guarded
first branch `-180 <= x < -90` and last branch `90 <= x <= 180`: every
input outside [-180, 180] falls through to the final `return 0`. -/
def logical_to_physical_function (t : LogAnchors) (x : ℚ) : ℚ :=
  if -180 ≤ x ∧ x < -90 then t.am180 + ((x + 180) / 90) * (t.am90 - t.am180)
  else if -90 ≤ x ∧ x < 0 then t.am90 + ((x + 90) / 90) * (t.a0 - t.am90)
  else if 0 ≤ x ∧ x < 90 then t.a0 + (x / 90) * (t.a90 - t.a0)
  else if 90 ≤ x ∧ x ≤ 180 then t.a90 + ((x - 90) / 90) * (t.a180 - t.a90)
  else 0

/-- Logical-to-physical converter, `logical_to_physical_converter`, the
closure built by `construct_logical_to_pwm_control_table.create_function_for_joint`
in `src/pwm_position_control/functions.py` (lines 119-142).  Unlike the
variant in `__init__.py`, its first branch is the unguarded `x < -90` and
its fourth branch the unguarded `90 <= x`, so inputs outside [-180, 180]
are linearly extrapolated instead of yielding 0; the trailing `return 0`
is unreachable but kept for faithfulness. -/
def logical_to_physical_converter (t : LogAnchors) (x : ℚ) : ℚ :=
  if x < -90 then t.am180 + ((x + 180) / 90) * (t.am90 - t.am180)
  else if -90 ≤ x ∧ x < 0 then t.am90 + ((x + 90) / 90) * (t.a0 - t.am90)
  else if 0 ≤ x ∧ x < 90 then t.a0 + (x / 90) * (t.a90 - t.a0)
  else if 90 ≤ x then t.a90 + ((x - 90) / 90) * (t.a180 - t.a90)
  else 0

/-- Per-joint control-table construction
`construct_pwm_to_logical_control_table` from
`src/pwm_position_control/functions.py` (lines 5-84): for every joint of the
input table, `create_function_for_joint` builds the `_f` closure from that
entry's own `values` dictionary.  The Python dictionary (unique keys) is
modelled as an association list. -/
def construct_pwm_to_logical_control_table
    (table : List (String × PhysAnchors)) : List (String × (ℚ → ℚ)) :=
  table.map (fun p => (p.1, fun x => physical_to_logical_converter p.2 x))

/-- Per-joint control-table construction
`construct_logical_to_pwm_control_table` from
`src/pwm_position_control/functions.py` (lines 87-151): for every joint of
the input table, `create_function_for_joint` builds the
`logical_to_physical_converter` closure from that entry's own `values`
dictionary. -/
def construct_logical_to_pwm_control_table
    (table : List (String × LogAnchors)) : List (String × (ℚ → ℚ)) :=
  table.map (fun p => (p.1, fun x => logical_to_physical_converter p.2 x))

/-- Python `int(...)`: truncation toward zero. -/
def pyInt (q : ℚ) : ℤ :=
  if q < 0 then ⌈q⌉ else ⌊q⌋

/-- One joint's entry of the conversion table consumed by
`src/pwm_position_control/transform.py`: the two callables stored under the
keys "physical_to_logical" and "logical_to_physical". -/
structure TableEntry where
  physical_to_logical : ℚ → ℚ
  logical_to_physical : ℚ → ℚ

/-- Per-element semantics of `physical_to_ranged_logical_numpy` /
`physical_to_ranged_logical_arrow` in `src/pwm_position_control/transform.py`
(lines 78-84 and 105-116): apply the joint's physical-to-logical callable to
`ticks * 360 / 4096`. -/
def physical_to_ranged_logical (e : TableEntry) (ticks : ℤ) : ℚ :=
  e.physical_to_logical ((ticks : ℚ) * 360 / 4096)

/-- Per-element semantics of `logical_to_physical_numpy` /
`logical_to_physical_arrow` in `src/pwm_position_control/transform.py`
(lines 146-152 and 173-188): `int(table[joint]["logical_to_physical"](x) * 4096 / 360)`. -/
def logical_to_physical_ticks (e : TableEntry) (y : ℚ) : ℤ :=
  pyInt (e.logical_to_physical y * 4096 / 360)

/-- Per-element semantics of `physical_to_un_ranged_logical_numpy` /
`physical_to_un_ranged_logical_arrow` in
`src/pwm_position_control/transform.py` (lines 191-261):
`base` re-derives the ticks implied by the ranged logical value,
`offset = (ticks - base) * 360 / 4096`, and the result is
`ranged - offset`. -/
def physical_to_un_ranged_logical (e : TableEntry) (ticks : ℤ) : ℚ :=
  physical_to_ranged_logical e ticks -
    ((ticks : ℚ) -
        ((logical_to_physical_ticks e (physical_to_ranged_logical e ticks) : ℤ) : ℚ)) *
      360 / 4096

/-- Per-element semantics of `logical_to_physical_with_offset_numpy` /
`logical_to_physical_with_offset_arrow` in
`src/pwm_position_control/transform.py` (lines 264-342):
`physical_ranged_goal` is the ticks of the target logical value, `base` the
ticks of the current un-ranged logical value, and the result is
`ticks - base + physical_ranged_goal`. -/
def logical_to_physical_with_offset (e : TableEntry) (ticks : ℤ) (target : ℚ) : ℤ :=
  ticks - logical_to_physical_ticks e (physical_to_un_ranged_logical e ticks) +
    logical_to_physical_ticks e target

/-- Failure modes of the batch entry points in
`src/pwm_position_control/transform.py`: the two explicit `ValueError`
raises of the numpy variants (a null sample, and a joint-count/value-count
mismatch), and the unchecked Python `TypeError` that arises in the arrow
variants when `as_py()` yields `None` and the code multiplies it. -/
inductive BatchError where
  | invalidInput : BatchError
  | shapeMismatch : BatchError
  | typeError : BatchError
deriving DecidableEq

/-- Left-to-right effectful map over a list, first error wins: the
evaluation order of the Python list comprehensions in
`src/pwm_position_control/transform.py`. -/
def mapExcept {α β : Type} (f : α → Except BatchError β) : List α → Except BatchError (List β)
  | [] => Except.ok []
  | a :: as =>
    match f a with
    | Except.error err => Except.error err
    | Except.ok b =>
      match mapExcept f as with
      | Except.error err => Except.error err
      | Except.ok bs => Except.ok (b :: bs)

/-- Batch `physical_to_ranged_logical_numpy` from
`src/pwm_position_control/transform.py` (lines 51-84): reject a batch
containing `None` (first check), then reject mismatched lengths, then map
the per-element conversion over the pairs. -/
def physical_to_ranged_logical_numpy (physical_values : List (Option ℤ))
    (joints : List String) (table : String → TableEntry) :
    Except BatchError (List ℚ) :=
  if physical_values.any (fun v => v.isNone) then
    Except.error BatchError.invalidInput
  else if joints.length ≠ physical_values.length then
    Except.error BatchError.shapeMismatch
  else
    Except.ok (List.zipWith
      (fun j v => physical_to_ranged_logical (table j) (v.getD 0)) joints physical_values)

/-- Batch `physical_to_ranged_logical_arrow` from
`src/pwm_position_control/transform.py` (lines 87-116): no validation is
performed; each struct element is converted directly, and a null value
surfaces as the Python `TypeError` raised by `None * 360 / 4096`. -/
def physical_to_ranged_logical_arrow (physical_values : List (String × Option ℤ))
    (table : String → TableEntry) : Except BatchError (List (String × ℚ)) :=
  mapExcept (fun p =>
    match p.2 with
    | none => Except.error BatchError.typeError
    | some t => Except.ok (p.1, physical_to_ranged_logical (table p.1) t)) physical_values

/-- Batch `logical_to_physical_numpy` from
`src/pwm_position_control/transform.py` (lines 119-152): reject `None`
values, then mismatched lengths, then truncate each converted value. -/
def logical_to_physical_numpy (logical_values : List (Option ℚ))
    (joints : List String) (table : String → TableEntry) :
    Except BatchError (List ℤ) :=
  if logical_values.any (fun v => v.isNone) then
    Except.error BatchError.invalidInput
  else if joints.length ≠ logical_values.length then
    Except.error BatchError.shapeMismatch
  else
    Except.ok (List.zipWith
      (fun j v => logical_to_physical_ticks (table j) (v.getD 0)) joints logical_values)

/-- Batch `logical_to_physical_arrow` from
`src/pwm_position_control/transform.py` (lines 155-188): no validation; a
null value surfaces as an unchecked `TypeError`. -/
def logical_to_physical_arrow (logical_values : List (String × Option ℚ))
    (table : String → TableEntry) : Except BatchError (List (String × ℤ)) :=
  mapExcept (fun p =>
    match p.2 with
    | none => Except.error BatchError.typeError
    | some x => Except.ok (p.1, logical_to_physical_ticks (table p.1) x)) logical_values

/-- The identity joint's physical anchors from the spec's boundary
scenario: physical 0, 90, 180, 270, 360 carry logical 0, 90, 180, 270, 360. -/
def identityPhys : PhysAnchors := ⟨0, 90, 180, 270, 360⟩

/-- The identity joint's logical anchors from the spec's boundary scenario:
logical -180, -90, 0, 90, 180 carry physical -180, -90, 0, 90, 180. -/
def identityLog : LogAnchors := ⟨-180, -90, 0, 90, 180⟩

/-- The conversion-table entry for the identity joint, holding the two
callables produced for it by the constructors in
`src/pwm_position_control/functions.py`. -/
def identityEntry : TableEntry :=
  ⟨fun x => physical_to_logical_converter identityPhys x,
   fun x => logical_to_physical_converter identityLog x⟩

/-- The anchor-resolution rule exactly as the specification words it:
"(-180, b) if a == 180 and b is neither 90 nor 270; else (a, -180) if
b == 180 and a is neither 90 nor 270; else (180, b) if a == -180 and b is
neither -90 nor -270; else (a, 180) if b == -180 and a is neither -90 nor
-270; and otherwise (a, b) unchanged", tested in this priority order. -/
def selectLimitsSpec (a b : ℚ) : ℚ × ℚ :=
  if a = 180 ∧ ¬(b = 90 ∨ b = 270) then (-180, b)
  else if b = 180 ∧ ¬(a = 90 ∨ a = 270) then (a, -180)
  else if a = -180 ∧ ¬(b = -90 ∨ b = -270) then (180, b)
  else if b = -180 ∧ ¬(a = -90 ∨ a = -270) then (a, 180)
  else (a, b)

/-- The resolved endpoint pair of one 90-degree quadrant, indexed by the
segment number of the specification's reference definition. -/
def segPair (t : PhysAnchors) (s : ℤ) : ℚ × ℚ :=
  if s = 0 then select_limits t.a0 t.a90
  else if s = 1 then select_limits t.a90 t.a180
  else if s = 2 then select_limits t.a180 t.a270
  else select_limits t.a270 t.a360

/-- The specification's reference definition of the physical-to-logical
converter: for x in [0, 360] take segment floor(x/90) clamped to
\x7b0,1,2,3\x7d, let (low, high) be that segment's resolved endpoints and
t = (x - segmentStart)/90, and return low + t * (high - low); every x
outside [0, 360] yields 0. -/
def physicalToLogicalRef (t : PhysAnchors) (x : ℚ) : ℚ :=
  if 0 ≤ x ∧ x ≤ 360 then
    (segPair t (min 3 (max 0 ⌊x / 90⌋))).1 +
      ((x - ((min 3 (max 0 ⌊x / 90⌋) : ℤ) : ℚ) * 90) / 90) *
        ((segPair t (min 3 (max 0 ⌊x / 90⌋))).2 -
          (segPair t (min 3 (max 0 ⌊x / 90⌋))).1)
  else 0

/-- Python modulo for a positive divisor: the result carries the sign of
the divisor. -/
def pymod (a b : ℚ) : ℚ := a - b * (⌊a / b⌋ : ℤ)

/-- The specification's wrap into [-180, 180]:
wrap(x) = ((x + 180) mod 360) - 180. -/
def wrap180 (x : ℚ) : ℚ := pymod (x + 180) 360 - 180

/-- The logical-degrees-to-ticks formula exactly as the claim words it:
round(logical_to_physical(wrap(x, [-180,180])) * 4096/360), rounding to
the nearest integer after wrapping the input into [-180, 180]. -/
def logicalToTicksClaim (e : TableEntry) (x : ℚ) : ℤ :=
  round (e.logical_to_physical (wrap180 x) * 4096 / 360)

/-- Looking up a key in an association list whose values were mapped
commutes with the value map. -/
theorem lookup_map_values {α β γ : Type} [BEq α] (f : β → γ)
    (l : List (α × β)) (a : α) :
    List.lookup a (l.map (fun p => (p.1, f p.2))) = (List.lookup a l).map f := by
  induction l with
  | nil => rfl
  | cons hd tl ih =>
    by_cases h : a == hd.1
    · simp [List.lookup, h]
    · simp only [List.map, List.lookup, h]
      simpa using ih

/-- C1: the anchor-resolution function `select_limits` agrees with the
claim's four-branch priority rule on every input pair: (-180, b) when
a = 180 and b is neither 90 nor 270, else (a, -180) when b = 180 and a is
neither 90 nor 270, else (180, b) when a = -180 and b is neither -90 nor
-270, else (a, 180) when b = -180 and a is neither -90 nor -270, else
(a, b) unchanged, stopping at the first matching condition. -/
theorem c1_select_limits_matches_spec (a b : ℚ) :
    select_limits a b = selectLimitsSpec a b := by
  unfold select_limits selectLimitsSpec
  simp only [not_or]

/-- C6: commanding a move to the joint's own current logical position is a
no-op: for every conversion-table entry and every current tick value,
`logical_to_physical_with_offset` applied to the joint's own un-ranged
logical position returns the current ticks unchanged. -/
theorem c6_move_to_own_position_is_noop (e : TableEntry) (ticks : ℤ) :
    logical_to_physical_with_offset e ticks (physical_to_un_ranged_logical e ticks) =
      ticks := by
  unfold logical_to_physical_with_offset
  omega

/-- C7 counterexample: with the identity calibration of the spec's boundary
scenario, the code returns 200 at physical 200 (the claim asserts -160) and
-170 at logical -170 (the claim asserts 190). -/
theorem c7_counterexample :
    physical_to_logical_converter identityPhys 200 = 200 ∧
      (200 : ℚ) ≠ -160 ∧
      logical_to_physical_function identityLog (-170) = -170 ∧
      ((-170 : ℚ)) ≠ 190 := by
  refine ⟨?_, by norm_num, ?_, by norm_num⟩
  · norm_num [physical_to_logical_converter, identityPhys, select_limits]
  · norm_num [logical_to_physical_function, identityLog]

/-- C7 amended: for the identity joint, the converters built by the table
constructors satisfy physicalToLogical(45) = 45, physicalToLogical(200) =
200 (not -160: `select_limits` leaves the pair (180, 270) unchanged because
the upper neighbour is exactly 270), and logicalToPhysical(-170) = -170
(not 190: the identity logical anchors map -170 to itself). -/
theorem c7_identity_boundary_scenario :
    physical_to_logical_converter identityPhys 45 = 45 ∧
      physical_to_logical_converter identityPhys 200 = 200 ∧
      logical_to_physical_function identityLog (-170) = -170 := by
  refine ⟨?_, ?_, ?_⟩
  · norm_num [physical_to_logical_converter, identityPhys, select_limits]
  · norm_num [physical_to_logical_converter, identityPhys, select_limits]
  · norm_num [logical_to_physical_function, identityLog]

/-- The floor of x / 90 is n whenever x lies in the n-th 90-degree segment. -/
theorem floor_div_90_eq (x : ℚ) (n : ℤ) (h0 : (n : ℚ) * 90 ≤ x)
    (h1 : x < ((n : ℚ) + 1) * 90) : ⌊x / 90⌋ = n := by
  rw [Int.floor_eq_iff]
  constructor
  · rw [le_div_iff₀ (by norm_num : (0:ℚ) < 90)]
    exact h0
  · rw [div_lt_iff₀ (by norm_num : (0:ℚ) < 90)]
    linarith

/-- C5: for every physical-anchor table and every rational input x, the
physical-to-logical converter equals the piecewise-linear reference
definition: on [0, 360] the segment is floor(x/90) clamped to 0..3, the
result is low + ((x - segmentStart)/90) * (high - low) over that segment's
resolved endpoints (x = 360 falling into the fourth segment with t = 1),
and every x outside [0, 360] yields 0. -/
theorem c5_physical_to_logical_matches_ref (t : PhysAnchors) (x : ℚ) :
    physical_to_logical_converter t x = physicalToLogicalRef t x := by
  unfold physical_to_logical_converter physicalToLogicalRef
  rcases lt_or_le x 0 with hx0 | hx0
  · rw [if_neg (fun hc : 0 ≤ x ∧ x < 90 => absurd hc.1 (not_le.mpr hx0)),
      if_neg (fun hc : 90 ≤ x ∧ x < 180 => absurd hc.1 (not_le.mpr (by linarith))),
      if_neg (fun hc : 180 ≤ x ∧ x < 270 => absurd hc.1 (not_le.mpr (by linarith))),
      if_neg (fun hc : 270 ≤ x ∧ x ≤ 360 => absurd hc.1 (not_le.mpr (by linarith))),
      if_neg (fun hc : 0 ≤ x ∧ x ≤ 360 => absurd hc.1 (not_le.mpr hx0))]
  · rcases lt_or_le x 90 with h90 | h90
    · have hf : ⌊x / 90⌋ = 0 :=
        floor_div_90_eq x 0 (by push_cast; linarith) (by push_cast; linarith)
      rw [if_pos ⟨hx0, h90⟩, if_pos ⟨hx0, by linarith⟩, hf]
      norm_num [segPair]
    · rcases lt_or_le x 180 with h180 | h180
      · have hf : ⌊x / 90⌋ = 1 :=
          floor_div_90_eq x 1 (by push_cast; linarith) (by push_cast; linarith)
        rw [if_neg (fun hc : 0 ≤ x ∧ x < 90 => absurd hc.2 (not_lt.mpr h90)),
          if_pos ⟨h90, h180⟩, if_pos ⟨hx0, by linarith⟩, hf]
        norm_num [segPair]
      · rcases lt_or_le x 270 with h270 | h270
        · have hf : ⌊x / 90⌋ = 2 :=
            floor_div_90_eq x 2 (by push_cast; linarith) (by push_cast; linarith)
          rw [if_neg (fun hc : 0 ≤ x ∧ x < 90 => absurd hc.2 (not_lt.mpr h90)),
            if_neg (fun hc : 90 ≤ x ∧ x < 180 => absurd hc.2 (not_lt.mpr h180)),
            if_pos ⟨h180, h270⟩, if_pos ⟨hx0, by linarith⟩, hf]
          norm_num [segPair]
        · rcases le_or_lt x 360 with h360 | h360
          · have hf3 : (3 : ℤ) ≤ ⌊x / 90⌋ := by
              rw [Int.le_floor]
              rw [le_div_iff₀ (by norm_num : (0:ℚ) < 90)]
              push_cast
              linarith
            have hmax : max 0 ⌊x / 90⌋ = ⌊x / 90⌋ :=
              max_eq_right (le_trans (by norm_num) hf3)
            have hmin : min 3 (max 0 ⌊x / 90⌋) = 3 := by
              rw [hmax]
              exact min_eq_left hf3
            rw [if_neg (fun hc : 0 ≤ x ∧ x < 90 => absurd hc.2 (not_lt.mpr h90)),
              if_neg (fun hc : 90 ≤ x ∧ x < 180 => absurd hc.2 (not_lt.mpr h180)),
              if_neg (fun hc : 180 ≤ x ∧ x < 270 => absurd hc.2 (not_lt.mpr h270)),
              if_pos ⟨h270, h360⟩, if_pos ⟨hx0, h360⟩, hmin]
            norm_num [segPair]
          · rw [if_neg (fun hc : 0 ≤ x ∧ x < 90 => absurd hc.2 (not_lt.mpr h90)),
              if_neg (fun hc : 90 ≤ x ∧ x < 180 => absurd hc.2 (not_lt.mpr h180)),
              if_neg (fun hc : 180 ≤ x ∧ x < 270 => absurd hc.2 (not_lt.mpr h270)),
              if_neg (fun hc : 270 ≤ x ∧ x ≤ 360 => absurd hc.2 (not_le.mpr h360)),
              if_neg (fun hc : 0 ≤ x ∧ x ≤ 360 => absurd hc.2 (not_le.mpr h360))]

/-- On [0, 360] the identity physical anchors make the physical-to-logical
converter the identity map: no `select_limits` branch fires and every
segment interpolates linearly between equal-slope endpoints. -/
theorem identity_p2l_eval (d : ℚ) (h0 : 0 ≤ d) (h1 : d ≤ 360) :
    physical_to_logical_converter identityPhys d = d := by
  have e1 : select_limits identityPhys.a0 identityPhys.a90 = (0, 90) := by
    norm_num [select_limits, identityPhys]
  have e2 : select_limits identityPhys.a90 identityPhys.a180 = (90, 180) := by
    norm_num [select_limits, identityPhys]
  have e3 : select_limits identityPhys.a180 identityPhys.a270 = (180, 270) := by
    norm_num [select_limits, identityPhys]
  have e4 : select_limits identityPhys.a270 identityPhys.a360 = (270, 360) := by
    norm_num [select_limits, identityPhys]
  unfold physical_to_logical_converter
  rw [e1, e2, e3, e4]
  rcases lt_or_le d 90 with h90 | h90
  · rw [if_pos ⟨h0, h90⟩]
    norm_num
  · rcases lt_or_le d 180 with h180 | h180
    · rw [if_neg (fun hc : 0 ≤ d ∧ d < 90 => absurd hc.2 (not_lt.mpr h90)),
        if_pos ⟨h90, h180⟩]
      norm_num
    · rcases lt_or_le d 270 with h270 | h270
      · rw [if_neg (fun hc : 0 ≤ d ∧ d < 90 => absurd hc.2 (not_lt.mpr h90)),
          if_neg (fun hc : 90 ≤ d ∧ d < 180 => absurd hc.2 (not_lt.mpr h180)),
          if_pos ⟨h180, h270⟩]
        norm_num
      · rw [if_neg (fun hc : 0 ≤ d ∧ d < 90 => absurd hc.2 (not_lt.mpr h90)),
          if_neg (fun hc : 90 ≤ d ∧ d < 180 => absurd hc.2 (not_lt.mpr h180)),
          if_neg (fun hc : 180 ≤ d ∧ d < 270 => absurd hc.2 (not_lt.mpr h270)),
          if_pos ⟨h270, h1⟩]
        norm_num

/-- On the nonnegative half-line the identity logical anchors make the
(extrapolating) logical-to-physical converter the identity map. -/
theorem identity_l2p_eval (d : ℚ) (h0 : 0 ≤ d) :
    logical_to_physical_converter identityLog d = d := by
  unfold logical_to_physical_converter
  rcases lt_or_le d 90 with h90 | h90
  · rw [if_neg (not_lt.mpr (by linarith : (-90:ℚ) ≤ d)),
      if_neg (fun hc : -90 ≤ d ∧ d < 0 => absurd hc.2 (not_lt.mpr h0)),
      if_pos ⟨h0, h90⟩]
    norm_num [identityLog]
  · rw [if_neg (not_lt.mpr (by linarith : (-90:ℚ) ≤ d)),
      if_neg (fun hc : -90 ≤ d ∧ d < 0 => absurd hc.2 (not_lt.mpr h0)),
      if_neg (fun hc : 0 ≤ d ∧ d < 90 => absurd hc.2 (not_lt.mpr h90)),
      if_pos h90]
    norm_num [identityLog]

/-- C2 (amended, part a): for the identity calibration entry the code's
tick round-trip is exact, so for every integer tick value within the
reference revolution [0, 4096] the un-ranged logical value equals the
ranged logical value. -/
theorem c2_unranged_eq_ranged_identity (ticks : ℤ) (h0 : 0 ≤ ticks)
    (h1 : ticks ≤ 4096) :
    physical_to_un_ranged_logical identityEntry ticks =
      physical_to_ranged_logical identityEntry ticks := by
  have hc0 : (0 : ℚ) ≤ (ticks : ℚ) := by exact_mod_cast h0
  have hc1 : (ticks : ℚ) ≤ 4096 := by exact_mod_cast h1
  have hd0 : (0 : ℚ) ≤ (ticks : ℚ) * 360 / 4096 := by positivity
  have hd1 : (ticks : ℚ) * 360 / 4096 ≤ 360 := by
    rw [div_le_iff₀ (by norm_num : (0:ℚ) < 4096)]
    linarith
  have hr : physical_to_ranged_logical identityEntry ticks =
      (ticks : ℚ) * 360 / 4096 := by
    unfold physical_to_ranged_logical identityEntry
    exact identity_p2l_eval _ hd0 hd1
  have hb : logical_to_physical_ticks identityEntry
      (physical_to_ranged_logical identityEntry ticks) = ticks := by
    rw [hr]
    unfold logical_to_physical_ticks
    have hl : identityEntry.logical_to_physical ((ticks : ℚ) * 360 / 4096) =
        (ticks : ℚ) * 360 / 4096 := identity_l2p_eval _ hd0
    rw [hl]
    have harith : (ticks : ℚ) * 360 / 4096 * 4096 / 360 = (ticks : ℚ) := by
      field_simp
    rw [harith]
    unfold pyInt
    rw [if_neg (not_lt.mpr hc0), Int.floor_intCast]
  unfold physical_to_un_ranged_logical
  rw [hb]
  ring

/-- Witness for C2: at the concrete tick value 1000 both hypotheses hold
and the un-ranged logical value equals the ranged one. -/
theorem c2_unranged_eq_ranged_identity_witness :
    (0 : ℤ) ≤ 1000 ∧ (1000 : ℤ) ≤ 4096 ∧
      physical_to_un_ranged_logical identityEntry 1000 =
        physical_to_ranged_logical identityEntry 1000 :=
  ⟨by norm_num, by norm_num,
    c2_unranged_eq_ranged_identity 1000 (by norm_num) (by norm_num)⟩

/-- C2 counterexample (part b): at the identity calibration entry and base
ticks 0 the one-revolution difference of the un-ranged logical value is
-360, not approximately 360: out-of-domain degrees fall back to 0 and the
revolution offset enters with the opposite sign. -/
theorem c2_counterexample :
    physical_to_un_ranged_logical identityEntry 0 -
        physical_to_un_ranged_logical identityEntry (0 - 4096) = -360 ∧
      ((-360 : ℚ)) ≠ 360 := by
  constructor
  · norm_num [physical_to_un_ranged_logical, physical_to_ranged_logical,
      logical_to_physical_ticks, identityEntry, physical_to_logical_converter,
      logical_to_physical_converter, identityPhys, identityLog, select_limits, pyInt]
  · norm_num

/-- C3 counterexample: for the identity joint at logical input 50 the code
truncates int(50 * 4096 / 360) = 568, while the claim's formula
round(logical_to_physical(wrap(50)) * 4096 / 360) gives 569. -/
theorem c3_counterexample :
    logical_to_physical_ticks identityEntry 50 = 568 ∧
      logicalToTicksClaim identityEntry 50 = 569 ∧
      logical_to_physical_ticks identityEntry 50 ≠
        logicalToTicksClaim identityEntry 50 := by
  refine ⟨?_, ?_, ?_⟩
  · norm_num [logical_to_physical_ticks, identityEntry,
      logical_to_physical_converter, identityLog, pyInt]
  · norm_num [logicalToTicksClaim, identityEntry, wrap180, pymod,
      logical_to_physical_converter, identityLog, round_eq]
  · norm_num [logical_to_physical_ticks, logicalToTicksClaim, identityEntry,
      wrap180, pymod, logical_to_physical_converter, identityLog, pyInt, round_eq]

/-- C3 (amended): both the numpy and the arrow batch entry points compute,
per element, int-truncation toward zero of the joint's logical_to_physical
callable applied to the raw (unwrapped) logical input, times 4096/360 —
no wrap into [-180, 180] and no rounding to nearest. -/
theorem c3_amended_trunc_no_wrap (jn : String) (x : ℚ) (table : String → TableEntry) :
    logical_to_physical_numpy [some x] [jn] table =
        Except.ok [pyInt ((table jn).logical_to_physical x * 4096 / 360)] ∧
      logical_to_physical_arrow [(jn, some x)] table =
        Except.ok [(jn, pyInt ((table jn).logical_to_physical x * 4096 / 360))] :=
  ⟨rfl, rfl⟩

/-- C4 counterexample: the logical-to-physical converter built by
`construct_logical_to_pwm_control_table` in functions.py does not return 0
outside [-180, 180]: at the identity logical anchors it returns 181 at
input 181. -/
theorem c4_counterexample :
    logical_to_physical_converter identityLog 181 = 181 ∧ ((181 : ℚ)) ≠ 0 := by
  constructor
  · norm_num [logical_to_physical_converter, identityLog]
  · norm_num

/-- C4 (amended): outside [-180, 180] the `build_logical_to_physical`
converter of `__init__.py` returns 0, while the functions.py converter
extrapolates: below -180 it continues the first segment's line and above
180 the fourth segment's line.  (Inside the domain both interpolate the
four logical-anchor pairs with no resolution step; see the C10 theorem.) -/
theorem c4_out_of_domain_behaviour (t : LogAnchors) (x : ℚ)
    (h : x < -180 ∨ 180 < x) :
    logical_to_physical_function t x = 0 ∧
      logical_to_physical_converter t x =
        (if x < -180 then t.am180 + ((x + 180) / 90) * (t.am90 - t.am180)
         else t.a90 + ((x - 90) / 90) * (t.a180 - t.a90)) := by
  rcases h with h | h
  · refine ⟨?_, ?_⟩
    · unfold logical_to_physical_function
      rw [if_neg (fun hc : -180 ≤ x ∧ x < -90 => absurd hc.1 (not_le.mpr h)),
        if_neg (fun hc : -90 ≤ x ∧ x < 0 => absurd hc.1 (not_le.mpr (by linarith))),
        if_neg (fun hc : 0 ≤ x ∧ x < 90 => absurd hc.1 (not_le.mpr (by linarith))),
        if_neg (fun hc : 90 ≤ x ∧ x ≤ 180 => absurd hc.1 (not_le.mpr (by linarith)))]
    · unfold logical_to_physical_converter
      rw [if_pos (show x < -90 by linarith), if_pos h]
  · refine ⟨?_, ?_⟩
    · unfold logical_to_physical_function
      rw [if_neg (fun hc : -180 ≤ x ∧ x < -90 => absurd hc.2 (not_lt.mpr (by linarith))),
        if_neg (fun hc : -90 ≤ x ∧ x < 0 => absurd hc.2 (not_lt.mpr (by linarith))),
        if_neg (fun hc : 0 ≤ x ∧ x < 90 => absurd hc.2 (not_lt.mpr (by linarith))),
        if_neg (fun hc : 90 ≤ x ∧ x ≤ 180 => absurd hc.2 (not_le.mpr h))]
    · unfold logical_to_physical_converter
      rw [if_neg (not_lt.mpr (by linarith : (-90:ℚ) ≤ x)),
        if_neg (fun hc : -90 ≤ x ∧ x < 0 => absurd hc.2 (not_lt.mpr (by linarith))),
        if_neg (fun hc : 0 ≤ x ∧ x < 90 => absurd hc.2 (not_lt.mpr (by linarith))),
        if_pos (show (90:ℚ) ≤ x by linarith),
        if_neg (not_lt.mpr (by linarith : (-180:ℚ) ≤ x))]

/-- Witness for C4: at the identity anchors and input 200 the hypothesis
180 < 200 holds, the init-variant converter returns 0 and the functions.py
converter returns the fourth segment's extrapolation. -/
theorem c4_out_of_domain_behaviour_witness :
    logical_to_physical_function identityLog 200 = 0 ∧
      logical_to_physical_converter identityLog 200 =
        (if (200 : ℚ) < -180 then
          identityLog.am180 + (((200 : ℚ) + 180) / 90) * (identityLog.am90 - identityLog.am180)
         else identityLog.a90 + (((200 : ℚ) - 90) / 90) * (identityLog.a180 - identityLog.a90)) :=
  c4_out_of_domain_behaviour identityLog 200 (Or.inr (by norm_num))

/-- C10 counterexample: the two duplicated logical-to-physical
implementations are not extensionally equal: at the identity anchors and
input 181 the functions.py converter returns 181 while the init-variant
returns 0. -/
theorem c10_counterexample :
    logical_to_physical_converter identityLog 181 ≠
      logical_to_physical_function identityLog 181 := by
  norm_num [logical_to_physical_converter, logical_to_physical_function, identityLog]

/-- C10 (amended): on the domain [-180, 180] the converter built by
`construct_logical_to_pwm_control_table` in functions.py and the converter
built by `build_logical_to_physical` in `__init__.py` agree on every input
and every anchor table; they differ only outside that interval. -/
theorem c10_converters_agree_on_domain (t : LogAnchors) (x : ℚ)
    (h0 : -180 ≤ x) (h1 : x ≤ 180) :
    logical_to_physical_converter t x = logical_to_physical_function t x := by
  unfold logical_to_physical_converter logical_to_physical_function
  rcases lt_or_le x (-90) with hm90 | hm90
  · rw [if_pos hm90, if_pos ⟨h0, hm90⟩]
  · rcases lt_or_le x 0 with h00 | h00
    · rw [if_neg (not_lt.mpr hm90),
        if_neg (fun hc : -180 ≤ x ∧ x < -90 => absurd hc.2 (not_lt.mpr hm90)),
        if_pos ⟨hm90, h00⟩, if_pos ⟨hm90, h00⟩]
    · rcases lt_or_le x 90 with h90 | h90
      · rw [if_neg (not_lt.mpr hm90),
          if_neg (fun hc : -90 ≤ x ∧ x < 0 => absurd hc.2 (not_lt.mpr h00)),
          if_neg (fun hc : -180 ≤ x ∧ x < -90 => absurd hc.2 (not_lt.mpr hm90)),
          if_neg (fun hc : -90 ≤ x ∧ x < 0 => absurd hc.2 (not_lt.mpr h00)),
          if_pos ⟨h00, h90⟩, if_pos ⟨h00, h90⟩]
      · rw [if_neg (not_lt.mpr hm90),
          if_neg (fun hc : -90 ≤ x ∧ x < 0 => absurd hc.2 (not_lt.mpr h00)),
          if_neg (fun hc : 0 ≤ x ∧ x < 90 => absurd hc.2 (not_lt.mpr h90)),
          if_pos h90,
          if_neg (fun hc : -180 ≤ x ∧ x < -90 => absurd hc.2 (not_lt.mpr hm90)),
          if_neg (fun hc : -90 ≤ x ∧ x < 0 => absurd hc.2 (not_lt.mpr h00)),
          if_neg (fun hc : 0 ≤ x ∧ x < 90 => absurd hc.2 (not_lt.mpr h90)),
          if_pos ⟨h90, h1⟩]

/-- Witness for C10: at the identity anchors and input 45 the hypotheses
hold and the two converters agree. -/
theorem c10_converters_agree_on_domain_witness :
    logical_to_physical_converter identityLog 45 =
      logical_to_physical_function identityLog 45 :=
  c10_converters_agree_on_domain identityLog 45 (by norm_num) (by norm_num)

/-- C8 counterexample: the arrow batch variant does not validate its
input: a batch containing a null sample fails with the unchecked Python
TypeError of `None * 360 / 4096`, not with the InvalidInput error, so
eager InvalidInput validation does not hold for all batch entry points. -/
theorem c8_counterexample :
    physical_to_ranged_logical_arrow [("j", none)] (fun _ => identityEntry) =
        Except.error BatchError.typeError ∧
      (Except.error BatchError.typeError : Except BatchError (List (String × ℚ))) ≠
        Except.error BatchError.invalidInput := by
  constructor
  · rfl
  · intro hcontra
    injection hcontra with hcontra2
    exact absurd hcontra2 (by decide)

/-- C8 (amended): the numpy batch variants validate eagerly: a batch
containing a null value fails with the InvalidInput ValueError (checked
first), and a null-free batch whose joint count differs from its value
count fails with the ShapeMismatch ValueError — for both the
physical-to-logical and the logical-to-physical numpy entry points. -/
theorem c8_numpy_validates_eagerly (physical_values : List (Option ℤ))
    (logical_values : List (Option ℚ)) (joints : List String)
    (table : String → TableEntry) :
    (physical_values.any (fun v => v.isNone) = true →
      physical_to_ranged_logical_numpy physical_values joints table =
        Except.error BatchError.invalidInput) ∧
    (physical_values.any (fun v => v.isNone) = false →
      joints.length ≠ physical_values.length →
      physical_to_ranged_logical_numpy physical_values joints table =
        Except.error BatchError.shapeMismatch) ∧
    (logical_values.any (fun v => v.isNone) = true →
      logical_to_physical_numpy logical_values joints table =
        Except.error BatchError.invalidInput) ∧
    (logical_values.any (fun v => v.isNone) = false →
      joints.length ≠ logical_values.length →
      logical_to_physical_numpy logical_values joints table =
        Except.error BatchError.shapeMismatch) := by
  refine ⟨?_, ?_, ?_, ?_⟩
  · intro h
    unfold physical_to_ranged_logical_numpy
    rw [if_pos h]
  · intro h hlen
    unfold physical_to_ranged_logical_numpy
    rw [if_neg (by simp [h]), if_pos hlen]
  · intro h
    unfold logical_to_physical_numpy
    rw [if_pos h]
  · intro h hlen
    unfold logical_to_physical_numpy
    rw [if_neg (by simp [h]), if_pos hlen]

/-- Witness for C8: concrete batches exercising all four arms: a null
sample yields InvalidInput and a batch of 3 joint names with 2 values
yields ShapeMismatch, for both numpy entry points. -/
theorem c8_numpy_validates_eagerly_witness :
    physical_to_ranged_logical_numpy [some 1, none] ["a", "b"]
        (fun _ => identityEntry) = Except.error BatchError.invalidInput ∧
      physical_to_ranged_logical_numpy [some 1, some 2] ["a", "b", "c"]
        (fun _ => identityEntry) = Except.error BatchError.shapeMismatch ∧
      logical_to_physical_numpy [some 1, none] ["a", "b"]
        (fun _ => identityEntry) = Except.error BatchError.invalidInput ∧
      logical_to_physical_numpy [some 1, some 2] ["a", "b", "c"]
        (fun _ => identityEntry) = Except.error BatchError.shapeMismatch :=
  ⟨(c8_numpy_validates_eagerly [some 1, none] [] ["a", "b"]
      (fun _ => identityEntry)).1 (by decide),
   ((c8_numpy_validates_eagerly [some 1, some 2] [] ["a", "b", "c"]
      (fun _ => identityEntry)).2).1 (by decide) (by decide),
   (((c8_numpy_validates_eagerly [] [some 1, none] ["a", "b"]
      (fun _ => identityEntry)).2).2).1 (by decide),
   (((c8_numpy_validates_eagerly [] [some 1, some 2] ["a", "b", "c"]
      (fun _ => identityEntry)).2).2).2 (by decide) (by decide)⟩

/-- Looking up a joint in the table built by
`construct_pwm_to_logical_control_table` returns the converter built from
that joint's own anchors. -/
theorem lookup_construct_pwm (table : List (String × PhysAnchors)) (J : String) :
    List.lookup J (construct_pwm_to_logical_control_table table) =
      (List.lookup J table).map
        (fun v => fun x => physical_to_logical_converter v x) := by
  unfold construct_pwm_to_logical_control_table
  exact lookup_map_values (fun v => fun x => physical_to_logical_converter v x) table J

/-- Looking up a joint in the table built by
`construct_logical_to_pwm_control_table` returns the converter built from
that joint's own anchors. -/
theorem lookup_construct_logical (table : List (String × LogAnchors)) (J : String) :
    List.lookup J (construct_logical_to_pwm_control_table table) =
      (List.lookup J table).map
        (fun v => fun x => logical_to_physical_converter v x) := by
  unfold construct_logical_to_pwm_control_table
  exact lookup_map_values (fun v => fun x => logical_to_physical_converter v x) table J

/-- C9: each joint's converters are built only from that joint's own
anchors: if two physical calibration tables agree on joint J's anchor
sub-mapping, and two logical calibration tables agree on J's sub-mapping,
then the physical-to-logical and logical-to-physical converters produced
for J by the functions.py constructors are identical, whatever the tables
hold for every other joint. -/
theorem c9_per_joint_isolation
    (t1 t2 : List (String × PhysAnchors)) (u1 u2 : List (String × LogAnchors))
    (J : String) (v : PhysAnchors) (w : LogAnchors)
    (h1 : List.lookup J t1 = some v) (h2 : List.lookup J t2 = some v)
    (h3 : List.lookup J u1 = some w) (h4 : List.lookup J u2 = some w) :
    List.lookup J (construct_pwm_to_logical_control_table t1) =
        List.lookup J (construct_pwm_to_logical_control_table t2) ∧
      List.lookup J (construct_logical_to_pwm_control_table u1) =
        List.lookup J (construct_logical_to_pwm_control_table u2) := by
  constructor
  · rw [lookup_construct_pwm, lookup_construct_pwm, h1, h2]
  · rw [lookup_construct_logical, lookup_construct_logical, h3, h4]

/-- Witness for C9: two concrete table pairs that agree on joint "J" but
differ on joint "K" produce the same converters for "J". -/
theorem c9_per_joint_isolation_witness :
    List.lookup "J" (construct_pwm_to_logical_control_table
        [("J", identityPhys), ("K", identityPhys)]) =
      List.lookup "J" (construct_pwm_to_logical_control_table
        [("J", identityPhys), ("K", PhysAnchors.mk 1 2 3 4 5)]) ∧
    List.lookup "J" (construct_logical_to_pwm_control_table
        [("J", identityLog), ("K", identityLog)]) =
      List.lookup "J" (construct_logical_to_pwm_control_table
        [("J", identityLog), ("K", LogAnchors.mk 1 2 3 4 5)]) :=
  c9_per_joint_isolation
    [("J", identityPhys), ("K", identityPhys)]
    [("J", identityPhys), ("K", PhysAnchors.mk 1 2 3 4 5)]
    [("J", identityLog), ("K", identityLog)]
    [("J", identityLog), ("K", LogAnchors.mk 1 2 3 4 5)]
    "J" identityPhys identityLog rfl rfl rfl rfl

end PwmPositionControl
